import Mathlib

/-!
Verification of the config-wizard deployment-descriptor engine.

This file shallowly embeds the core of the repository:

* `src/core/models.py` — the service model (`Container`, `Project`, `Status`);
* `src/infrastructure/filesystem.py` — the descriptor codec
  (`FileRepository.load_project` / `save_project` / `create_compose`) and the
  template renderer (`FileRepository.render_template`);
* `src/infrastructure/docker_runner.py` — the status reconciler
  (`DockerRunner.get_container_statuses` / `get_status` / `compose_up` /
  `compose_down`);
* `src/core/services.py` — the orchestrating service (`ProjectService`).

Python dictionaries are modelled as association lists with insertion order and
last-write-wins overwrite that keeps the original position (exactly Python's
`dict` semantics).  `yaml.safe_dump` is modelled by its observable effect on a
subsequent `yaml.safe_load`: every mapping comes back with its keys sorted
(PyYAML's default `sort_keys=True`) and string scalars round-trip unchanged.
External process execution (`subprocess.run`) and `json.loads` are modelled as
oracle inputs, since they are library boundaries.
-/

/-- Python `dict` insertion: `d[k] = v`.  Overwriting an existing key keeps its
original position; a new key is appended at the end. -/
def dictInsert {κ ν : Type} [BEq κ] (k : κ) (v : ν) (d : List (κ × ν)) : List (κ × ν) :=
  if d.any (fun p => p.1 == k) then
    d.map (fun p => if p.1 == k then (k, v) else p)
  else
    d ++ [(k, v)]

/-- `Status` enum from `src/core/models.py`. -/
inductive Status where
  | RUNNING
  | STOPPED
  | NOT_CREATED
deriving DecidableEq, Repr

/-- `Container` from `src/core/models.py`: one service definition.  `ports`,
`volumes` and `env` are Python dicts (association lists here); `depends_on` is
a list; `restart_policy` a string (default `"unless-stopped"`). -/
structure Container where
  name : String
  image : String
  ports : List (String × String)
  volumes : List (String × String)
  env : List (String × String)
  depends_on : List String
  restart_policy : String
deriving DecidableEq, Repr

/-- One entry of the `services:` table of a descriptor document, as the codec
reads and writes it.  Absent optional fields are identified with their parse
default where the code cannot distinguish the two (`ports`/`volumes`/
`depends_on` absent ≡ `[]`, `environment` absent or `null` ≡ `{}` via the
source's `conf.get("environment", {}) or {}`, `extra_hosts` absent ≡ `{}`);
`image` and `restart` stay `Option` because `load_project` applies explicit
defaults `""` and `"unless-stopped"` to them. -/
structure ServiceConf where
  image : Option String
  ports : List String
  volumes : List String
  environment : List (String × String)
  depends_on : List String
  restart : Option String
  extra_hosts : List (String × String)
deriving DecidableEq, Repr

/-- The inverting dict comprehension `{host: ip for ip, host in pairs}` used at
`filesystem.py:134` (serialize) and, with the loaded mapping's items, at
`filesystem.py:115` (parse): insert each pair keyed by its second component. -/
def swapDict (pairs : List (String × String)) : List (String × String) :=
  pairs.foldl (fun d p => dictInsert p.2 p.1 d) []

/-- Split a string at its first `':'`, the behaviour of Python's
`s.split(":", 1)` guarded by `":" in s` (`filesystem.py:98-99`): `none` when no
colon occurs. -/
def splitColonAux : List Char → Option (List Char × List Char)
  | [] => none
  | c :: rest =>
    if c = ':' then some ([], rest)
    else
      match splitColonAux rest with
      | none => none
      | some (a, b) => some (c :: a, b)

/-- String version of `splitColonAux`. -/
def pySplitColon (s : String) : Option (String × String) :=
  match splitColonAux s.data with
  | none => none
  | some (a, b) => some (String.mk a, String.mk b)

/-- The `ports`/`volumes` parsing loop of `load_project`
(`filesystem.py:95-107`): entries without a colon are silently dropped, the
rest are split at the first colon and inserted into a dict. -/
def parsePairs (ss : List String) : List (String × String) :=
  ss.foldl
    (fun d s =>
      match pySplitColon s with
      | some (h, v) => dictInsert h v d
      | none => d)
    []

example : parsePairs ["8080:80", "noport", "a:b:c"] = [("8080", "80"), ("a", "b:c")] := by decide

example : swapDict [("1.1.1.1", "h1"), ("2.2.2.2", "h2")] = [("h1", "1.1.1.1"), ("h2", "2.2.2.2")] := by
  decide

/-! ## Descriptor codec: serialization (`FileRepository.save_project`,
`filesystem.py:132-150`, and the identical free-form branch of
`create_compose`, `filesystem.py:161-182`) -/

/-- The per-service configuration built at `filesystem.py:136-147`: ports and
volumes re-joined as `"H:C"` strings in dict-iteration order, `environment`
emitted only when non-empty (≡ `[]` in this model), `depends_on` and `restart`
always emitted, the shared host table (already inverted to `alias ↦ address`
by `swapDict`) stamped onto the entry when non-empty. -/
def buildConf (hostsDict : List (String × String)) (c : Container) : ServiceConf :=
  { image := some c.image
    ports := c.ports.map (fun p => p.1 ++ ":" ++ p.2)
    volumes := c.volumes.map (fun p => p.1 ++ ":" ++ p.2)
    environment := c.env
    depends_on := c.depends_on
    restart := some c.restart_policy
    extra_hosts := hostsDict }

/-- The `services` table built by `save_project` (`filesystem.py:133-147`):
a dict keyed by container name. `hosts` are the project's `(ip, host)` pairs
(`extra_hosts` is inverted once before the loop at `filesystem.py:134`; the
value is loop-invariant, so inlining it keeps the same result). -/
def buildServices (containers : List Container) (hosts : List (String × String)) :
    List (String × ServiceConf) :=
  containers.foldl (fun svcs c => dictInsert c.name (buildConf (swapDict hosts) c) svcs) []

/-- `DEFAULT_TEMPLATE` (`filesystem.py:10-18`): the fixed placeholder service
written when a project is created with zero services.  Only `image`, `ports`
and `restart` appear in the source dict; the other fields are absent. -/
def DEFAULT_TEMPLATE : List (String × ServiceConf) :=
  [("nginx",
    { image := some "nginx:latest"
      ports := ["8080:80"]
      volumes := []
      environment := []
      depends_on := []
      restart := some "unless-stopped"
      extra_hosts := [] })]

/-- Free-form branch of `FileRepository.create_compose`
(`filesystem.py:161-182`): build the services table exactly as `save_project`
does and fall back to `DEFAULT_TEMPLATE` when it is empty. -/
def create_compose (containers : List Container) (hosts : List (String × String)) :
    List (String × ServiceConf) :=
  let services := buildServices containers hosts
  if services.isEmpty then DEFAULT_TEMPLATE else services

/-! ## The `yaml.safe_dump` / `yaml.safe_load` round trip

`save_project` writes the document with `yaml.safe_dump` (default
`sort_keys=True`) and `load_project` reads it back with `yaml.safe_load`, so a
written mapping is observed again with its keys in sorted order, while list
entries and string scalars come back unchanged. -/

/-- Sort a dict's entries by key — the observable effect of
`yaml.safe_dump`'s `sort_keys=True` on a mapping that is later re-loaded. -/
def sortDict {ν : Type} (d : List (String × ν)) : List (String × ν) :=
  List.insertionSort (fun a b => a.1 ≤ b.1) d

/-- Key-sort the nested mappings of one service entry (`environment` and
`extra_hosts` are dicts; `ports`, `volumes`, `depends_on` are lists and keep
their order). -/
def dumpLoadConf (c : ServiceConf) : ServiceConf :=
  { c with environment := sortDict c.environment, extra_hosts := sortDict c.extra_hosts }

/-- Writing a services table with `yaml.safe_dump` and re-reading it with
`yaml.safe_load`: every mapping, at every level, comes back key-sorted. -/
def dumpLoad (tbl : List (String × ServiceConf)) : List (String × ServiceConf) :=
  sortDict (tbl.map (fun p => (p.1, dumpLoadConf p.2)))

/-! ## Descriptor codec: parsing (`FileRepository.load_project`,
`filesystem.py:85-130`) -/

/-- Parse one service entry into a `Container` (`filesystem.py:95-127`). -/
def parseConf (name : String) (conf : ServiceConf) : Container :=
  { name := name
    image := conf.image.getD ""
    ports := parsePairs conf.ports
    volumes := parsePairs conf.volumes
    env := conf.environment
    depends_on := conf.depends_on
    restart_policy := conf.restart.getD "unless-stopped" }

/-- The shared host table reconstruction (`filesystem.py:113-115, 129`): the
first service with a non-empty `extra_hosts` mapping wins; its entries are
inverted back to `(address, alias)` pairs by the `swapDict` comprehension. -/
def parseExtraHosts (tbl : List (String × ServiceConf)) : List (String × String) :=
  tbl.foldl
    (fun eh p => if !p.2.extra_hosts.isEmpty && eh.isEmpty then swapDict p.2.extra_hosts else eh)
    []

/-- Parse a services table into the list of containers (in table order) and
the shared host table — the core of `load_project`. -/
def parseTable (tbl : List (String × ServiceConf)) :
    List Container × List (String × String) :=
  (tbl.map (fun p => parseConf p.1 p.2), parseExtraHosts tbl)

/-- `parse ∘ serialize`: serialize services `S` and host table `H` with
`save_project`, push the document through the yaml write/read boundary, and
parse it back with `load_project`. -/
def roundTrip (S : List Container) (H : List (String × String)) :
    List Container × List (String × String) :=
  parseTable (dumpLoad (buildServices S H))

/-! ## Association-list lemmas -/

theorem dictInsert_fresh {κ ν : Type} [BEq κ] [LawfulBEq κ] {k : κ} (v : ν)
    {d : List (κ × ν)} (h : ∀ q ∈ d, q.1 ≠ k) :
    dictInsert k v d = d ++ [(k, v)] := by
  unfold dictInsert
  rw [if_neg]
  intro hany
  rcases List.any_eq_true.mp hany with ⟨q, hq, hbeq⟩
  exact h q hq (eq_of_beq hbeq)

theorem foldl_dictInsert_fresh {κ ν : Type} [BEq κ] [LawfulBEq κ] :
    ∀ (l d : List (κ × ν)), l.Pairwise (fun a b => a.1 ≠ b.1) →
      (∀ p ∈ l, ∀ q ∈ d, q.1 ≠ p.1) →
      l.foldl (fun d p => dictInsert p.1 p.2 d) d = d ++ l := by
  intro l
  induction l with
  | nil => intro d _ _; simp
  | cons p rest ih =>
    intro d hpw hfresh
    rcases List.pairwise_cons.mp hpw with ⟨hhead, htail⟩
    simp only [List.foldl_cons]
    rw [dictInsert_fresh p.2 (fun q hq => hfresh p (by simp) q hq)]
    rw [ih (d ++ [(p.1, p.2)]) htail ?fresh]
    · simp
    case fresh =>
      intro r hr q hq
      rcases List.mem_append.mp hq with h1 | h2
      · exact hfresh r (List.mem_cons_of_mem p hr) q h1
      · have : q = (p.1, p.2) := by simpa using h2
        rw [this]
        exact hhead r hr

theorem foldl_congr_mem {α β : Type} {f g : α → β → α} :
    ∀ (l : List β) (a : α), (∀ x ∈ l, ∀ acc, f acc x = g acc x) →
      l.foldl f a = l.foldl g a := by
  intro l
  induction l with
  | nil => intro a _; rfl
  | cons x xs ih =>
    intro a h
    simp only [List.foldl_cons]
    rw [h x (by simp) a]
    exact ih _ (fun y hy acc => h y (List.mem_cons_of_mem x hy) acc)

theorem swapDict_eq_map_swap {l : List (String × String)}
    (h : l.Pairwise (fun a b => a.2 ≠ b.2)) : swapDict l = l.map Prod.swap := by
  unfold swapDict
  rw [show (fun (d : List (String × String)) (p : String × String) => dictInsert p.2 p.1 d) =
        (fun d p => dictInsert (Prod.swap p).1 (Prod.swap p).2 d) from rfl,
      ← List.foldl_map Prod.swap (fun d p => dictInsert p.1 p.2 d)]
  rw [foldl_dictInsert_fresh _ _ (by rw [List.pairwise_map]; exact h) (by simp)]
  simp

theorem splitColonAux_append {h v : List Char} (hh : ':' ∉ h) :
    splitColonAux (h ++ ':' :: v) = some (h, v) := by
  induction h with
  | nil => simp [splitColonAux]
  | cons c cs ih =>
    have hc : ¬(c = ':') := fun e => hh (by rw [e]; exact List.mem_cons_self _ _)
    have hcs : ':' ∉ cs := fun m => hh (List.mem_cons_of_mem _ m)
    simp only [List.cons_append, splitColonAux, if_neg hc, List.append_eq, ih hcs]

theorem pySplitColon_join (h v : String) (hh : ':' ∉ h.data) :
    pySplitColon (h ++ ":" ++ v) = some (h, v) := by
  unfold pySplitColon
  have hdata : (h ++ ":" ++ v).data = h.data ++ ':' :: v.data := by
    simp [String.data_append]
  rw [hdata, splitColonAux_append hh]

theorem parsePairs_join (l : List (String × String))
    (hcol : ∀ p ∈ l, ':' ∉ p.1.data) (hpw : l.Pairwise (fun a b => a.1 ≠ b.1)) :
    parsePairs (l.map (fun p => p.1 ++ ":" ++ p.2)) = l := by
  unfold parsePairs
  rw [List.foldl_map]
  rw [foldl_congr_mem l []
      (g := fun d p => dictInsert p.1 p.2 d)
      (fun p hp acc => by rw [pySplitColon_join p.1 p.2 (hcol p hp)])]
  rw [foldl_dictInsert_fresh l [] hpw (by simp)]
  simp

theorem sortDict_sorted_eq {ν : Type} {d : List (String × ν)}
    (h : d.Pairwise (fun a b => a.1 < b.1)) : sortDict d = d :=
  List.Sorted.insertionSort_eq (List.Pairwise.imp (fun hab => le_of_lt hab) h)

theorem dictInsert_ne_nil {κ ν : Type} [BEq κ] (k : κ) (v : ν) (d : List (κ × ν)) :
    dictInsert k v d ≠ [] := by
  unfold dictInsert
  split
  · cases d with
    | nil => simp_all
    | cons q qs => simp
  · simp

theorem parseExtraHosts_stable :
    ∀ (tbl : List (String × ServiceConf)) (eh : List (String × String)), eh ≠ [] →
      tbl.foldl
        (fun eh p =>
          if !p.2.extra_hosts.isEmpty && eh.isEmpty then swapDict p.2.extra_hosts else eh)
        eh = eh := by
  intro tbl
  induction tbl with
  | nil => intro eh _; rfl
  | cons q rest ih =>
    intro eh hne
    have hemp : eh.isEmpty = false := by simpa [List.isEmpty_iff] using hne
    simp only [List.foldl_cons, hemp, Bool.and_false, if_neg (by simp : ¬(false = true))]
    exact ih eh hne

theorem parseExtraHosts_all_empty :
    ∀ (tbl : List (String × ServiceConf)), (∀ p ∈ tbl, p.2.extra_hosts = []) →
      parseExtraHosts tbl = [] := by
  intro tbl
  induction tbl with
  | nil => intro _; rfl
  | cons q rest ih =>
    intro h
    unfold parseExtraHosts at ih ⊢
    simp only [List.foldl_cons, h q (List.mem_cons_self q rest), List.isEmpty_nil,
      Bool.not_true, Bool.false_and, if_neg (by simp : ¬(false = true))]
    exact ih (fun p hp => h p (List.mem_cons_of_mem q hp))

theorem parseExtraHosts_first_nonempty (q : String × ServiceConf)
    (rest : List (String × ServiceConf)) (hq : q.2.extra_hosts ≠ [])
    (hsw : swapDict q.2.extra_hosts ≠ []) :
    parseExtraHosts (q :: rest) = swapDict q.2.extra_hosts := by
  have hemp : q.2.extra_hosts.isEmpty = false := by simpa [List.isEmpty_iff] using hq
  unfold parseExtraHosts
  simp only [List.foldl_cons, hemp, Bool.not_false, List.isEmpty_nil, Bool.and_true,
    if_pos (rfl : (true : Bool) = true)]
  exact parseExtraHosts_stable rest _ hsw

/-! ## "Produced by this engine itself"

The round-trip law of the spec is scoped to service sets and host tables the
engine itself produces.  Data coming out of `load_project` applied to a
document the engine wrote satisfies exactly the invariants below:

* the containers appear in table order of a `safe_dump`-sorted document, so
  they are strictly sorted by (necessarily unique) name;
* port / volume host keys arise from splitting at the *first* colon, so they
  contain no `':'`, and as dict keys they are unique;
* `env` is read off a dumped (key-sorted, key-unique) mapping;
* the host table is read off the address-keyed dict `{addr: alias}` built from
  the alias-sorted dumped mapping, so addresses are unique and entries are
  strictly sorted by alias;
* the host table only exists when read off some service entry, so a project
  with no services has an empty host table. -/
def wellFormedContainer (c : Container) : Prop :=
  c.ports.Pairwise (fun a b => a.1 ≠ b.1) ∧ (∀ p ∈ c.ports, ':' ∉ p.1.data) ∧
  c.volumes.Pairwise (fun a b => a.1 ≠ b.1) ∧ (∀ p ∈ c.volumes, ':' ∉ p.1.data) ∧
  c.env.Pairwise (fun a b => a.1 < b.1)

/-- See the section comment: the invariants satisfied by every
`(services, hostTable)` pair this engine itself produces. -/
def engineProduced (S : List Container) (H : List (String × String)) : Prop :=
  S.Pairwise (fun a b => a.name < b.name) ∧
  (∀ c ∈ S, wellFormedContainer c) ∧
  H.Pairwise (fun a b => a.2 < b.2) ∧
  H.Pairwise (fun a b => a.1 ≠ b.1) ∧
  (S = [] → H = [])

theorem buildServices_eq_map (S : List Container) (H : List (String × String))
    (hNames : S.Pairwise (fun a b => a.name ≠ b.name)) :
    buildServices S H = S.map (fun c => (c.name, buildConf (swapDict H) c)) := by
  unfold buildServices
  rw [show (fun (svcs : List (String × ServiceConf)) (c : Container) =>
        dictInsert c.name (buildConf (swapDict H) c) svcs) =
      (fun svcs c =>
        (fun (d : List (String × ServiceConf)) (p : String × ServiceConf) =>
            dictInsert p.1 p.2 d)
          svcs ((fun c => (c.name, buildConf (swapDict H) c)) c)) from rfl,
    ← List.foldl_map (fun c => (c.name, buildConf (swapDict H) c))
      (fun d p => dictInsert p.1 p.2 d)]
  rw [foldl_dictInsert_fresh _ [] (by rw [List.pairwise_map]; exact hNames) (by simp)]
  simp

/-- C1: for every list of service definitions `S` and host table `H` produced
by this engine itself (`engineProduced` states exactly the invariants of data
the engine produces; hand-authored malformed entries are excluded by it),
parsing the document obtained by serializing `S` and `H`
(`save_project` → `yaml.safe_dump`/`safe_load` → `load_project`) returns
exactly `S` and `H`: the result is equal as a pair of lists, so every
service's name, image, port bindings, volume bindings, environment,
`depends_on` list and restart policy, and the shared `(address, alias)`
host-table entries, are reproduced unchanged. -/
theorem roundTrip_exact (S : List Container) (H : List (String × String))
    (h : engineProduced S H) : roundTrip S H = (S, H) := by
  obtain ⟨hS, hwf, hHs, hHa, hSH⟩ := h
  have hNames : S.Pairwise (fun a b => a.name ≠ b.name) :=
    List.Pairwise.imp (fun hab => ne_of_lt hab) hS
  have hAliasNe : H.Pairwise (fun a b => a.2 ≠ b.2) :=
    List.Pairwise.imp (fun hab => ne_of_lt hab) hHs
  have hhd : swapDict H = H.map Prod.swap := swapDict_eq_map_swap hAliasNe
  have hmapSorted : (H.map Prod.swap).Pairwise (fun a b => a.1 < b.1) := by
    rw [List.pairwise_map]; exact hHs
  have hswapBack : swapDict (H.map Prod.swap) = H := by
    rw [swapDict_eq_map_swap (by rw [List.pairwise_map]; exact hHa),
      List.map_map]
    simp [Prod.swap_swap]
  -- the serialized table
  have hbuild := buildServices_eq_map S H hNames
  -- the yaml write/read step is the identity on this table
  have hconf : ∀ c ∈ S, dumpLoadConf (buildConf (swapDict H) c) = buildConf (swapDict H) c := by
    intro c hc
    obtain ⟨hp, hpc, hv, hvc, he⟩ := hwf c hc
    unfold dumpLoadConf buildConf
    simp only [ServiceConf.mk.injEq, and_true, true_and]
    constructor
    · exact sortDict_sorted_eq he
    · rw [hhd]; exact sortDict_sorted_eq hmapSorted
  have hdump : dumpLoad (buildServices S H) =
      S.map (fun c => (c.name, buildConf (swapDict H) c)) := by
    rw [hbuild]
    unfold dumpLoad
    rw [List.map_map]
    have hmapeq : S.map ((fun (p : String × ServiceConf) => (p.1, dumpLoadConf p.2)) ∘
        (fun c => (c.name, buildConf (swapDict H) c))) =
        S.map (fun c => (c.name, buildConf (swapDict H) c)) := by
      apply List.map_congr_left
      intro c hc
      simp only [Function.comp_apply]
      rw [hconf c hc]
    rw [hmapeq]
    exact sortDict_sorted_eq (by rw [List.pairwise_map]; exact hS)
  -- parsing recovers every container
  have hparse : ∀ c ∈ S, parseConf c.name (buildConf (swapDict H) c) = c := by
    intro c hc
    obtain ⟨hp, hpc, hv, hvc, _⟩ := hwf c hc
    unfold parseConf buildConf
    simp only [Option.getD_some]
    rw [parsePairs_join c.ports hpc hp, parsePairs_join c.volumes hvc hv]
  -- parsing recovers the host table
  have hhosts : parseExtraHosts (S.map (fun c => (c.name, buildConf (swapDict H) c))) = H := by
    cases hHcase : H with
    | nil =>
      apply parseExtraHosts_all_empty
      intro p hp
      rcases List.mem_map.mp hp with ⟨c, _, hcp⟩
      rw [← hcp]
      rfl
    | cons h0 Hrest =>
      have hHne : H ≠ [] := by rw [hHcase]; simp
      have hSne : S ≠ [] := fun hS0 => hHne (hSH hS0)
      rw [← hHcase]
      cases hScase : S with
      | nil => exact absurd hScase hSne
      | cons c0 Srest =>
        rw [List.map_cons]
        rw [parseExtraHosts_first_nonempty _ _ ?hne ?hsw]
        case hne =>
          show swapDict H ≠ []
          rw [hhd, hHcase]
          simp
        case hsw =>
          show swapDict (swapDict H) ≠ []
          rw [hhd, hswapBack, hHcase]
          simp
        show swapDict (swapDict H) = H
        rw [hhd, hswapBack]
  -- assemble
  unfold roundTrip parseTable
  rw [hdump, Prod.mk.injEq]
  constructor
  · rw [List.map_map]
    have : S.map ((fun (p : String × ServiceConf) => parseConf p.1 p.2) ∘
        (fun c => (c.name, buildConf (swapDict H) c))) = S.map id := by
      apply List.map_congr_left
      intro c hc
      simp only [Function.comp_apply, id_eq]
      exact hparse c hc
    rw [this, List.map_id]
  · exact hhosts

/-- The spec's round-trip scenario: project "demo" with the single service
`web(image="nginx:latest", ports={"8080":"80"})` and an empty host table. -/
def demoWeb : Container :=
  { name := "web"
    image := "nginx:latest"
    ports := [("8080", "80")]
    volumes := []
    env := []
    depends_on := []
    restart_policy := "unless-stopped" }

/-- Witness for C1: the demo service set is engine-producible and serializing
then parsing it reproduces the identical port mapping `{"8080": "80"}`. -/
theorem roundTrip_exact_witness :
    engineProduced [demoWeb] [] ∧ roundTrip [demoWeb] [] = ([demoWeb], []) :=
  have hep : engineProduced [demoWeb] [] := by
    unfold engineProduced wellFormedContainer demoWeb
    refine ⟨by decide, ?_, by decide, by decide, by simp⟩
    intro c hc
    simp only [List.mem_singleton] at hc
    subst hc
    exact ⟨by decide, by decide, by decide, by decide, by decide⟩
  ⟨hep, roundTrip_exact [demoWeb] [] hep⟩

/-! ## Orchestrator path handling (`ProjectService`, `src/core/services.py`)

Filesystem paths are modelled as component lists.  `pathlib`'s `/` operator
parses the right-hand string into components, collapsing duplicate slashes and
single dots but keeping `".."` components; a right-hand operand starting with
`/` replaces the whole left path. -/

/-- Python `".." in name` / `"_" in name`: substring containment. -/
def strContains (s pat : String) : Bool :=
  s.data.tails.any (fun t => pat.data.isPrefixOf t)

example : strContains "../etc" ".." = true := by decide
example : strContains "a.b" ".." = false := by decide

/-- Python `str.split(sep)` for a one-character separator, on char lists
(kernel-computable, unlike `String.splitOn`'s position arithmetic):
`"a//b".split("/") = ["a", "", "b"]`, `"".split("/") = [""]`. -/
def splitChar (sep : Char) : List Char → List (List Char)
  | [] => [[]]
  | c :: rest =>
    let r := splitChar sep rest
    if c = sep then [] :: r else (c :: r.headD []) :: r.tail

/-- String wrapper of `splitChar`. -/
def pySplit (s : String) (sep : Char) : List String :=
  (splitChar sep s.data).map String.mk

example : pySplit "a//b" '/' = ["a", "", "b"] := by decide
example : pySplit "" '/' = [""] := by decide

/-- Components contributed by a relative path string under `pathlib` joining:
split on `/`, drop empty components and `"."`. -/
def pyPathParts (name : String) : List String :=
  (pySplit name '/').filter (fun c => c != "" && c != ".")

/-- `root_path / name` (`services.py:77` and `services.py:90`). -/
def pyJoin (root : List String) (name : String) : List String :=
  if "/".data.isPrefixOf name.data then pyPathParts name else root ++ pyPathParts name

/-- `ProjectService.get_project` (`services.py:87-95`).  The filesystem is an
oracle argument (`fsExists`); the returned value stands for the loaded
project, represented by its storage path (loading and status reconciliation
are orthogonal to the lookup contract).  `none` is the "not found" sentinel. -/
def get_project (fsExists : List String → Bool) (root : List String) (name : String) :
    Option (List String) :=
  if name == "" || strContains name ".." then none
  else
    if !fsExists (pyJoin root name) then none
    else some (pyJoin root name)

/-- The storage path of the project produced by `ProjectService.create_project`
(`services.py:77`, `path = root_path / name`, with no check on `name`); the
created project is `load_project(path)` and so has exactly this path. -/
def create_project_path (root : List String) (name : String) : List String :=
  pyJoin root name

/-- `p` is a direct child of `root`: one extra component, and not a `".."`
escape disguised as a child. -/
def isDirectChild (p root : List String) : Bool :=
  root.isPrefixOf p && p.length == root.length + 1

/-- POSIX resolution of `".."` components, to exhibit where a traversal name
actually lands. -/
def resolveDots (parts : List String) : List String :=
  parts.foldl (fun acc c => if c == ".." then acc.dropLast else acc ++ [c]) []

/-- C2 counterexample: the claim says no operation, including create, ever
produces a project whose `storagePath` is not a direct child of the configured
root.  But `create_project` applies no traversal check: for root
`/home/user/projects` and requested name `"../etc"` the created project's
storage path is `/home/user/projects/../etc`, which is not a direct child of
the root and resolves to `/home/user/etc`, outside the root entirely. -/
theorem create_project_escapes_root :
    create_project_path ["home", "user", "projects"] "../etc" =
        ["home", "user", "projects", "..", "etc"] ∧
    isDirectChild (create_project_path ["home", "user", "projects"] "../etc")
        ["home", "user", "projects"] = false ∧
    resolveDots (create_project_path ["home", "user", "projects"] "../etc") =
        ["home", "user", "etc"] ∧
    (["home", "user", "projects"].isPrefixOf
        (resolveDots (create_project_path ["home", "user", "projects"] "../etc"))) = false := by
  refine ⟨by decide, by decide, by decide, by decide⟩

/-- C2 amended: `get_project` refuses empty names and any name containing the
parent-traversal token `".."`, returning the "not found" sentinel for every
filesystem oracle — i.e. without touching the filesystem; `create_project`,
however, performs no such check (see the counterexample: its storage path is
`root / name` verbatim). -/
theorem get_project_refuses_traversal (fsExists : List String → Bool)
    (root : List String) (name : String)
    (h : name = "" ∨ strContains name ".." = true) :
    get_project fsExists root name = none := by
  unfold get_project
  rcases h with h | h
  · rw [if_pos]
    rw [h]
    simp
  · rw [if_pos]
    rw [h]
    simp

/-- Witness for the C2 amended theorem: the spec scenario `"../etc"` is
refused by get-by-name even on a filesystem oracle where every path exists. -/
theorem get_project_refuses_traversal_witness :
    (("../etc" : String) = "" ∨ strContains "../etc" ".." = true) ∧
    get_project (fun _ => true) ["home", "user", "projects"] "../etc" = none :=
  ⟨Or.inr (by decide),
   get_project_refuses_traversal (fun _ => true) ["home", "user", "projects"] "../etc"
     (Or.inr (by decide))⟩

/-! ## Top-level document handling of `load_project` (`filesystem.py:85-93`)

`load_project` runs `yaml.safe_load` and then `yaml_data.get("services", {})`.
The repository defines no `InvalidDescriptor` (or any custom) exception class:
a non-mapping top level (list, scalar, or `None` from an empty file) makes the
attribute access `.get` raise a bare `AttributeError`, and a mapping without a
`"services"` key silently parses as zero services. -/

/-- The shapes of a loaded descriptor document that `load_project`
distinguishes at the top level. -/
inductive TopDoc where
  | notMapping
  | mapping (services : Option (List (String × ServiceConf)))

/-- The internal Python exception escaping `load_project` on a non-mapping
document: `AttributeError` from `yaml_data.get`. -/
inductive PyExc where
  | attributeError
deriving DecidableEq, Repr

/-- `FileRepository.load_project` (`filesystem.py:85-130`) on the file-system
outcome at `path / "docker-compose.yaml"`: `none` models an absent file
(`filesystem.py:87-88`), `some doc` the loaded document.  The result pair is
the project's `(containers, extra_hosts)`. -/
def load_project (file : Option TopDoc) :
    Except PyExc (List Container × List (String × String)) :=
  match file with
  | none => .ok ([], [])
  | some .notMapping => .error .attributeError
  | some (.mapping none) => .ok (parseTable [])
  | some (.mapping (some tbl)) => .ok (parseTable tbl)

/-- C3 counterexample: the claim says a document lacking a service table
surfaces a distinct `InvalidDescriptor` error condition.  The code instead
parses such a document successfully into a project with zero services — no
error of any kind is raised (and the repository defines no `InvalidDescriptor`
at all; the only failure a malformed top level produces is a bare
`AttributeError`). -/
theorem load_project_no_services_is_ok :
    load_project (some (TopDoc.mapping none)) = .ok ([], []) ∧
    (load_project (some (TopDoc.mapping none))).isOk = true := by
  refine ⟨rfl, rfl⟩

/-- C3 amended: a descriptor file whose top level is not a mapping raises a
bare internal `AttributeError` (not a distinct `InvalidDescriptor`
condition); a mapping lacking a service table is not an error and parses as
zero services; and absence of the descriptor file is not an error and yields
a project with an empty service list. -/
theorem load_project_toplevel_behaviour :
    load_project none = .ok ([], []) ∧
    load_project (some TopDoc.notMapping) = .error PyExc.attributeError ∧
    load_project (some (TopDoc.mapping none)) = .ok ([], []) := by
  refine ⟨rfl, rfl, rfl⟩

/-! ## Template renderer (`FileRepository.render_template`,
`filesystem.py:37-83`)

The variable bag is a Python dict of strings and booleans.  The three regexes
of the source are implemented as executable matchers; `re.match` with a
`^...$` pattern accepts exactly the core language plus an optional trailing
newline (Python's `$` also matches just before a final `'\n'`). -/

/-- A value in the renderer's variable bag (the source passes only `str` and
`bool` values, cf. `TEMPLATE_VARS_SCHEMA` in `services.py:9-29`). -/
inductive PyVal where
  | str (s : String)
  | bool (b : Bool)
deriving DecidableEq, Repr

/-- The renderer's variable bag `vars_dict`. -/
abbrev VarBag := List (String × PyVal)

/-- `[a-z0-9.-]` — the image-reference character class. -/
def imageChar (c : Char) : Bool :=
  ('a' ≤ c && c ≤ 'z') || c.isDigit || c == '.' || c == '-'

/-- `[a-zA-Z0-9.-]` — the reverse-proxy hostname character class. -/
def hostChar (c : Char) : Bool :=
  c.isAlpha || c.isDigit || c == '.' || c == '-'

/-- Nonempty run of class characters (`[cls]+`). -/
def matchSeg (cls : Char → Bool) (cs : List Char) : Bool :=
  !cs.isEmpty && cs.all cls

/-- Split at the first occurrence of `sep`, if any. -/
def splitFirstChar (sep : Char) : List Char → Option (List Char × List Char)
  | [] => none
  | c :: rest =>
    if c = sep then some ([], rest)
    else
      match splitFirstChar sep rest with
      | none => none
      | some (a, b) => some (c :: a, b)

/-- Core language of `^[a-z0-9.-]+(?:/[a-z0-9.-]+)?(:[a-z0-9.-]+)?$`
(`filesystem.py:66`).  The separators `/` and `:` are outside the class, so
the split-based check recognises exactly the regex's language. -/
def imageCore (cs : List Char) : Bool :=
  match splitFirstChar ':' cs with
  | none =>
    (match splitFirstChar '/' cs with
     | none => matchSeg imageChar cs
     | some (a, b) => matchSeg imageChar a && matchSeg imageChar b)
  | some (pre, tag) =>
    (match splitFirstChar '/' pre with
     | none => matchSeg imageChar pre
     | some (a, b) => matchSeg imageChar a && matchSeg imageChar b) &&
    matchSeg imageChar tag

/-- Core language of `^[0-9]+:[0-9]+$` (`filesystem.py:60`). -/
def portCore (cs : List Char) : Bool :=
  match splitFirstChar ':' cs with
  | none => false
  | some (a, b) => matchSeg Char.isDigit a && matchSeg Char.isDigit b

/-- Core language of `^[a-zA-Z0-9.-]+$` (`filesystem.py:57`). -/
def hostCore (cs : List Char) : Bool :=
  matchSeg hostChar cs

/-- `re.match(p, s)` for an anchored pattern `^...$`: the core language, or
the core language followed by one trailing newline (Python's `$`). -/
def pyAnchoredMatch (core : List Char → Bool) (s : String) : Bool :=
  core s.data || (s.data.getLast? == some '\n' && core s.data.dropLast)

def pyMatchImage (s : String) : Bool := pyAnchoredMatch imageCore s
def pyMatchPort (s : String) : Bool := pyAnchoredMatch portCore s
def pyMatchHost (s : String) : Bool := pyAnchoredMatch hostCore s

example : pyMatchImage "nginx:latest" = true := by decide
example : pyMatchImage "Nginx" = false := by decide
example : pyMatchPort "8080:80" = true := by decide
example : pyMatchPort "8080" = false := by decide

/-- The required-variable table of `render_template` (`filesystem.py:44-48`),
in its Python-dict iteration order; all three are of type `str`. -/
def requiredVars : List String := ["frontend_image", "backend_image", "selected_host"]

/-- Is an optional lookup result a present string value?  (`var_name in
vars_dict and isinstance(vars_dict[var_name], str)`.) -/
def isStrVal : Option PyVal → Bool
  | some (PyVal.str _) => true
  | _ => false

/-- The `ValueError` message of `filesystem.py:54` for a missing or wrongly
typed required variable (`{var_type}` formats as `<class 'str'>`). -/
def missingMsg (v : String) : String :=
  "Missing or invalid required var: " ++ v ++ " (type: <class 'str'>)"

/-- The first required variable that is missing or not a string — the one the
loop at `filesystem.py:52-54` raises about. -/
def checkRequired (vars : VarBag) : Option String :=
  requiredVars.find? (fun v => !isStrVal (vars.lookup v))

/-- Failure outcomes of `render_template`: `FileNotFoundError` for a missing
template file, `ValueError` (with its message) for validation and rendering
failures, `TypeError` for `re.match` applied to a non-string. -/
inductive RenderErr where
  | fileNotFound
  | valueError (msg : String)
  | typeError
deriving DecidableEq, Repr

/-- The reverse-proxy check of `filesystem.py:56-58`: present, `bool`-typed
and truthy `use_reverse_proxy`, and `selected_host` failing the hostname
regex.  (`selected_host` is guaranteed to be a string by the time this code
runs, since the required-variable loop comes first.) -/
def rpCheckFails (vars : VarBag) : Bool :=
  (match vars.lookup "use_reverse_proxy" with
   | some (PyVal.bool true) => true
   | _ => false) &&
  (match vars.lookup "selected_host" with
   | some (PyVal.str h) => !pyMatchHost h
   | _ => false)

/-- One optional-variable regex check of `filesystem.py:61-64`: absent is
fine, a non-matching string raises `ValueError(msg)`, a non-string raises
`TypeError` inside `re.match`. -/
def portVarErr (vars : VarBag) (k msg : String) : Option RenderErr :=
  match vars.lookup k with
  | none => none
  | some (PyVal.str s) => if pyMatchPort s then none else some (.valueError msg)
  | some (PyVal.bool _) => some .typeError

/-- Image-reference check of `filesystem.py:67-70`, same shape. -/
def imageVarErr (vars : VarBag) (k msg : String) : Option RenderErr :=
  match vars.lookup k with
  | none => none
  | some (PyVal.str s) => if pyMatchImage s then none else some (.valueError msg)
  | some (PyVal.bool _) => some .typeError

/-- The full validation prefix of `render_template` (`filesystem.py:44-70`),
in source order; `none` = all checks passed. -/
def validate (vars : VarBag) : Option RenderErr :=
  match checkRequired vars with
  | some v => some (.valueError (missingMsg v))
  | none =>
    if rpCheckFails vars then
      some (.valueError "Invalid selected_host format for reverse proxy (must be valid domain).")
    else
      match portVarErr vars "frontend_ports" "Invalid frontend_ports format (e.g., '8080:80')." with
      | some e => some e
      | none =>
        match portVarErr vars "backend_ports" "Invalid backend_ports format (e.g., '5000:5000')." with
        | some e => some e
        | none =>
          match imageVarErr vars "frontend_image" "Invalid frontend_image format (e.g., 'nginx:latest')." with
          | some e => some e
          | none =>
            imageVarErr vars "backend_image" "Invalid backend_image format (e.g., 'python:3.11')."

/-- Outcome of expanding the Jinja2 template and parsing the result as YAML
(`filesystem.py:72-79`): a `TemplateError`, a YAML parse error, a non-dict
document, or a services document. -/
inductive ExpandOut where
  | jinjaError
  | yamlError
  | nonDict
  | dict (tbl : List (String × ServiceConf))

/-- `FileRepository.render_template` (`filesystem.py:37-83`): template
existence check, then validation in source order, then expansion.  The
template itself is a parameter (`tmpl`), so theorems quantifying over it show
which outcomes are decided before the template is ever touched.  The
`ValueError` messages for expansion failures carry a `str(e)` suffix in the
source; the model keeps their distinguishing prefixes. -/
def render_template (templateExists : Bool) (tmpl : VarBag → ExpandOut) (vars : VarBag) :
    Except RenderErr (List (String × ServiceConf)) :=
  if !templateExists then .error .fileNotFound
  else
    match validate vars with
    | some e => .error e
    | none =>
      match tmpl vars with
      | .jinjaError => .error (.valueError "Jinja2 rendering failed")
      | .yamlError => .error (.valueError "YAML parsing failed after rendering")
      | .nonDict => .error (.valueError "Rendered template is not valid YAML dict.")
      | .dict tbl => .ok tbl

/-- C4: for every variable bag missing one of the required variables
`frontend_image` / `backend_image` / `selected_host` (or supplying it with a
non-string type), `render_template` — given the template file exists, the
separate configuration error of §6 — raises the `ValueError` of
`filesystem.py:54` naming a missing/ill-typed required variable (the first
such in source order), and it does so for *every* template, i.e. before any
template expansion: the template is never touched. -/
theorem render_missing_required_validation (vars : VarBag) (v : String)
    (hv : v ∈ requiredVars) (hbad : isStrVal (vars.lookup v) = false) :
    ∃ v', v' ∈ requiredVars ∧ isStrVal (vars.lookup v') = false ∧
      ∀ tmpl, render_template true tmpl vars = .error (.valueError (missingMsg v')) := by
  have hfind : (checkRequired vars).isSome := by
    unfold checkRequired
    rw [List.find?_isSome]
    exact ⟨v, hv, by simp [hbad]⟩
  obtain ⟨v', hv'⟩ := Option.isSome_iff_exists.mp hfind
  refine ⟨v', List.mem_of_find?_eq_some hv', by simpa using List.find?_some hv', ?_⟩
  intro tmpl
  have hval : validate vars = some (.valueError (missingMsg v')) := by
    unfold validate
    rw [hv']
  unfold render_template
  rw [hval]
  rfl

/-- Witness for C4: the empty variable bag misses `frontend_image`, and the
renderer fails with the `ValueError` naming it regardless of the template. -/
theorem render_missing_required_validation_witness :
    (("frontend_image" : String) ∈ requiredVars ∧
      isStrVal (List.lookup "frontend_image" ([] : VarBag)) = false) ∧
    ∃ v', v' ∈ requiredVars ∧ isStrVal (List.lookup v' ([] : VarBag)) = false ∧
      ∀ tmpl, render_template true tmpl [] = .error (.valueError (missingMsg v')) :=
  ⟨⟨by decide, by decide⟩,
   render_missing_required_validation [] "frontend_image" (by decide) (by decide)⟩

/-! ## The fullstack template (C5) -/

/-- Python truthiness of an optional template variable (Jinja2's `if`). -/
def truthyOpt (v : Option PyVal) : Bool :=
  match v with
  | some (PyVal.bool b) => b
  | some (PyVal.str s) => s != ""
  | none => false

/-- A string variable with a fallback when it is absent (or not a string). -/
def strOr (v : Option PyVal) (d : String) : String :=
  match v with
  | some (PyVal.str s) => s
  | _ => d

/-- The admissible database kinds of the template contract. -/
def dbTypes : List String := ["postgres", "mysql", "mongo"]

/-- Default database image by `db_type` (`postgres:15` / `mysql:8` /
`mongo:6`). -/
def dbDefaultImage (t : String) : String :=
  if t == "postgres" then "postgres:15" else if t == "mysql" then "mysql:8" else "mongo:6"

/-- Default database port by `db_type` (`5432` / `3306` / `27017`). -/
def dbDefaultPort (t : String) : String :=
  if t == "postgres" then "5432" else if t == "mysql" then "3306" else "27017"

/-- Modelled from the spec: the Jinja2 template `templates/fullstack.j2` is
not part of `src/` (`render_template` reads it from disk at
`src/templates/fullstack.j2`, which the repository does not ship), so its
expansion is modelled from §4.2 of the spec: a frontend and a backend service
from the required variables, and, when `db_enabled` is truthy, a database
block for which `db_user` / `db_password` / `db_name` are required non-empty,
`db_type` must be one of `postgres|mysql|mongo`, and `db_image` / `db_port`
default by `db_type` when not supplied; violations of the database contract
fail the expansion (surfacing through `render_template`'s `TemplateError`
branch). -/
def fullstack_template (vars : VarBag) : ExpandOut :=
  let frontend : ServiceConf :=
    { image := some (strOr (vars.lookup "frontend_image") "")
      ports := [strOr (vars.lookup "frontend_ports") "8080:80"]
      volumes := []
      environment := []
      depends_on := []
      restart := some "unless-stopped"
      extra_hosts := [] }
  let backend : ServiceConf :=
    { image := some (strOr (vars.lookup "backend_image") "")
      ports := [strOr (vars.lookup "backend_ports") "5000:5000"]
      volumes := []
      environment := []
      depends_on := []
      restart := some "unless-stopped"
      extra_hosts := [] }
  let base := [("frontend", frontend), ("backend", backend)]
  if !truthyOpt (vars.lookup "db_enabled") then .dict base
  else
    let u := strOr (vars.lookup "db_user") ""
    let pw := strOr (vars.lookup "db_password") ""
    let n := strOr (vars.lookup "db_name") ""
    if u == "" || pw == "" || n == "" then .jinjaError
    else
      match vars.lookup "db_type" with
      | some (PyVal.str t) =>
        if dbTypes.contains t then
          .dict (base ++
            [(strOr (vars.lookup "db_service") "db",
              { image := some (strOr (vars.lookup "db_image") (dbDefaultImage t))
                ports :=
                  [strOr (vars.lookup "db_port") (dbDefaultPort t) ++ ":" ++
                    strOr (vars.lookup "db_port") (dbDefaultPort t)]
                volumes := []
                environment := [("DB_USER", u), ("DB_PASSWORD", pw), ("DB_NAME", n)]
                depends_on := []
                restart := some "unless-stopped"
                extra_hosts := [] })])
        else .jinjaError
      | _ => .jinjaError

/-- C5: rendering with the fullstack template and a bag that passes the
Python-side validation: (1) with `db_enabled` truthy, a missing/empty
`db_user`, `db_password` or `db_name` fails the rendering; (2) a `db_type`
outside `postgres|mysql|mongo` fails the rendering; (3) with
`db_type = "mysql"` and `db_port` and `db_image` not supplied, the rendered
descriptor's database service uses port `"3306"` (binding `"3306:3306"`) and
image `"mysql:8"`. -/
theorem fullstack_db_defaults :
    (∀ vars : VarBag, validate vars = none →
        truthyOpt (vars.lookup "db_enabled") = true →
        (strOr (vars.lookup "db_user") "" = "" ∨ strOr (vars.lookup "db_password") "" = "" ∨
          strOr (vars.lookup "db_name") "" = "") →
        render_template true fullstack_template vars =
          .error (.valueError "Jinja2 rendering failed")) ∧
    (∀ (vars : VarBag) (t : String), validate vars = none →
        truthyOpt (vars.lookup "db_enabled") = true →
        strOr (vars.lookup "db_user") "" ≠ "" →
        strOr (vars.lookup "db_password") "" ≠ "" →
        strOr (vars.lookup "db_name") "" ≠ "" →
        vars.lookup "db_type" = some (PyVal.str t) → dbTypes.contains t = false →
        render_template true fullstack_template vars =
          .error (.valueError "Jinja2 rendering failed")) ∧
    (∀ vars : VarBag, validate vars = none →
        truthyOpt (vars.lookup "db_enabled") = true →
        strOr (vars.lookup "db_user") "" ≠ "" →
        strOr (vars.lookup "db_password") "" ≠ "" →
        strOr (vars.lookup "db_name") "" ≠ "" →
        vars.lookup "db_type" = some (PyVal.str "mysql") →
        vars.lookup "db_port" = none → vars.lookup "db_image" = none →
        ∃ tbl conf, render_template true fullstack_template vars = .ok tbl ∧
          (strOr (vars.lookup "db_service") "db", conf) ∈ tbl ∧
          conf.ports = ["3306:3306"] ∧ conf.image = some "mysql:8") := by
  refine ⟨?_, ?_, ?_⟩
  · intro vars hval hdb hmiss
    unfold render_template
    rw [hval]
    have hjt : fullstack_template vars = .jinjaError := by
      unfold fullstack_template
      rw [hdb]
      simp only [Bool.not_true, Bool.false_eq_true, if_false]
      rw [if_pos]
      rcases hmiss with h | h | h <;> simp [h]
    rw [hjt]
    rfl
  · intro vars t hval hdb hu hpw hn htype hbad
    unfold render_template
    rw [hval]
    have hjt : fullstack_template vars = .jinjaError := by
      unfold fullstack_template
      rw [hdb]
      simp only [Bool.not_true, Bool.false_eq_true, if_false]
      rw [if_neg (by simp [hu, hpw, hn]), htype]
      have hmem : t ∉ dbTypes := by simpa using hbad
      simp [hmem]
    rw [hjt]
    rfl
  · intro vars hval hdb hu hpw hn htype hport himg
    have hdoc : fullstack_template vars =
        .dict ([("frontend",
            { image := some (strOr (vars.lookup "frontend_image") "")
              ports := [strOr (vars.lookup "frontend_ports") "8080:80"]
              volumes := []
              environment := []
              depends_on := []
              restart := some "unless-stopped"
              extra_hosts := [] }),
          ("backend",
            { image := some (strOr (vars.lookup "backend_image") "")
              ports := [strOr (vars.lookup "backend_ports") "5000:5000"]
              volumes := []
              environment := []
              depends_on := []
              restart := some "unless-stopped"
              extra_hosts := [] })] ++
          [(strOr (vars.lookup "db_service") "db",
            { image := some "mysql:8"
              ports := ["3306:3306"]
              volumes := []
              environment := [("DB_USER", strOr (vars.lookup "db_user") ""),
                ("DB_PASSWORD", strOr (vars.lookup "db_password") ""),
                ("DB_NAME", strOr (vars.lookup "db_name") "")]
              depends_on := []
              restart := some "unless-stopped"
              extra_hosts := [] })]) := by
      unfold fullstack_template
      rw [hdb]
      simp only [Bool.not_true, Bool.false_eq_true, if_false]
      rw [if_neg (by simp [hu, hpw, hn]), htype, hport, himg]
      rfl
    refine ⟨[("frontend",
        { image := some (strOr (vars.lookup "frontend_image") "")
          ports := [strOr (vars.lookup "frontend_ports") "8080:80"]
          volumes := []
          environment := []
          depends_on := []
          restart := some "unless-stopped"
          extra_hosts := [] }),
      ("backend",
        { image := some (strOr (vars.lookup "backend_image") "")
          ports := [strOr (vars.lookup "backend_ports") "5000:5000"]
          volumes := []
          environment := []
          depends_on := []
          restart := some "unless-stopped"
          extra_hosts := [] })] ++
      [(strOr (vars.lookup "db_service") "db",
        { image := some "mysql:8"
          ports := ["3306:3306"]
          volumes := []
          environment := [("DB_USER", strOr (vars.lookup "db_user") ""),
            ("DB_PASSWORD", strOr (vars.lookup "db_password") ""),
            ("DB_NAME", strOr (vars.lookup "db_name") "")]
          depends_on := []
          restart := some "unless-stopped"
          extra_hosts := [] })],
      { image := some "mysql:8"
        ports := ["3306:3306"]
        volumes := []
        environment := [("DB_USER", strOr (vars.lookup "db_user") ""),
          ("DB_PASSWORD", strOr (vars.lookup "db_password") ""),
          ("DB_NAME", strOr (vars.lookup "db_name") "")]
        depends_on := []
        restart := some "unless-stopped"
        extra_hosts := [] }, ?_, ?_, rfl, rfl⟩
    · unfold render_template
      rw [hval, hdoc]
      rfl
    · exact List.mem_append_right _ (List.mem_singleton.mpr rfl)

/-- Witness for C5, one concrete bag per conjunct: a base bag passing
validation with `db_enabled` set but `db_user` missing (conjunct 1), with an
unknown `db_type` `"oracle"` (conjunct 2), and with `db_type = "mysql"` and
no `db_port`/`db_image` supplied (conjunct 3, the `"3306"` default). -/
theorem fullstack_db_defaults_witness :
    (render_template true fullstack_template
        [("frontend_image", PyVal.str "nginx:latest"), ("backend_image", PyVal.str "python:3.11"),
         ("selected_host", PyVal.str "myapp.local"), ("db_enabled", PyVal.bool true)] =
      .error (.valueError "Jinja2 rendering failed")) ∧
    (render_template true fullstack_template
        [("frontend_image", PyVal.str "nginx:latest"), ("backend_image", PyVal.str "python:3.11"),
         ("selected_host", PyVal.str "myapp.local"), ("db_enabled", PyVal.bool true),
         ("db_user", PyVal.str "u"), ("db_password", PyVal.str "p"), ("db_name", PyVal.str "d"),
         ("db_type", PyVal.str "oracle")] =
      .error (.valueError "Jinja2 rendering failed")) ∧
    (∃ tbl conf,
      render_template true fullstack_template
          [("frontend_image", PyVal.str "nginx:latest"), ("backend_image", PyVal.str "python:3.11"),
           ("selected_host", PyVal.str "myapp.local"), ("db_enabled", PyVal.bool true),
           ("db_user", PyVal.str "u"), ("db_password", PyVal.str "p"), ("db_name", PyVal.str "d"),
           ("db_type", PyVal.str "mysql")] = .ok tbl ∧
        ("db", conf) ∈ tbl ∧ conf.ports = ["3306:3306"] ∧ conf.image = some "mysql:8") := by
  refine ⟨?_, ?_, ?_⟩
  · exact fullstack_db_defaults.1 _ (by decide) (by decide) (Or.inl (by decide))
  · exact fullstack_db_defaults.2.1 _ "oracle" (by decide) (by decide) (by decide) (by decide)
      (by decide) (by decide) (by decide)
  · exact fullstack_db_defaults.2.2 _ (by decide) (by decide) (by decide) (by decide) (by decide)
      (by decide) (by decide) (by decide)

/-! ## Status reconciler (`DockerRunner`, `src/infrastructure/docker_runner.py`)

`subprocess.run` and `json.loads` are library boundaries; the model takes the
run outcome (timeout, or return code + stdout) and the decode result of the
stdout as input.  Everything after `json.loads` — normalisation, record
classification, and the catch-all `except` that returns the statuses
accumulated so far — is modelled from the source. -/

/-- Python string `.strip()` whitespace set (ASCII). -/
def isPySpace (c : Char) : Bool :=
  c == ' ' || c == '\t' || c == '\n' || c == '\r' || c == '\x0b' || c == '\x0c'

/-- Python `s.strip()`. -/
def pyStrip (s : String) : String :=
  String.mk (((s.data.dropWhile isPySpace).reverse.dropWhile isPySpace).reverse)

/-- Python `s.lower()` (ASCII range; the states compared against are ASCII). -/
def pyCharLower (c : Char) : Char :=
  if 'A' ≤ c && c ≤ 'Z' then Char.ofNat (c.toNat + 32) else c

/-- String-level `.lower()`. -/
def pyLower (s : String) : String :=
  String.mk (s.data.map pyCharLower)

/-- JSON values as returned by `json.loads`. -/
inductive Json where
  | null
  | bool (b : Bool)
  | num (n : Int)
  | str (s : String)
  | arr (xs : List Json)
  | obj (kvs : List (String × Json))

/-- Equality of JSON values used as Python dict keys.  Only hashable scalars
ever reach the statuses dict (`statuses[service_name]` raises `TypeError` for
a list/dict key before inserting, which the model's record processing turns
into the aborted-loop outcome), so equality on `arr`/`obj` is never consulted;
Python's `True == 1` cross-type key equality is included. -/
def jsonKeyEq : Json → Json → Bool
  | .null, .null => true
  | .bool a, .bool b => a == b
  | .bool a, .num n => (if a then (1 : Int) else 0) == n
  | .num n, .bool b => n == (if b then (1 : Int) else 0)
  | .num a, .num b => a == b
  | .str a, .str b => a == b
  | _, _ => false

instance : BEq Json := ⟨jsonKeyEq⟩

/-- Python truthiness of a JSON value (`if not service_name:`). -/
def jsonTruthy : Json → Bool
  | .null => false
  | .bool b => b
  | .num n => n != 0
  | .str s => s != ""
  | .arr xs => !xs.isEmpty
  | .obj kvs => !kvs.isEmpty

/-- `cont.get(key, "")` on a decoded JSON object. -/
def jGet (kvs : List (String × Json)) (k : String) : Json :=
  (kvs.lookup k).getD (.str "")

/-- The fallback service-name derivation of `docker_runner.py:34-35`:
`name.split("_")[-2] if "_" in name and len(name.split("_")) > 2 else name`. -/
def deriveName (name : String) : String :=
  let parts := pySplit name '_'
  if strContains name "_" && decide (2 < parts.length) then
    (parts.get? (parts.length - 2)).getD ""
  else name

example : deriveName "proj_web_1" = "web" := by decide
example : deriveName "web_1" = "web_1" := by decide
example : deriveName "web" = "web" := by decide

/-- The state-string classification of `docker_runner.py:36-42`
(case-insensitive substring checks, in source order). -/
def classifyState (state : String) : Status :=
  if strContains state "running" || strContains state "up" then .RUNNING
  else if strContains state "exited" || strContains state "stopped" then .STOPPED
  else .NOT_CREATED

/-- Processing of one record of the loop at `docker_runner.py:31-42`.
`none` models a Python exception inside the loop body (attribute access on a
non-dict record, `"_" in name` / `.lower()` on a non-string, or an unhashable
dict key), which the surrounding `except ...: pass` turns into an early return
of the statuses accumulated so far. -/
def processRecord (cont : Json) : Option (Json × Status) :=
  match cont with
  | .obj kvs =>
    match (if jsonTruthy (jGet kvs "Service") then some (jGet kvs "Service") else none) with
    | some key =>
      match key with
      | .arr _ => none
      | .obj _ => none
      | k =>
        match jGet kvs "State" with
        | .str st => some (k, classifyState (pyLower st))
        | _ => none
    | none =>
      match jGet kvs "Name" with
      | .str name =>
        match jGet kvs "State" with
        | .str st => some (Json.str (deriveName name), classifyState (pyLower st))
        | _ => none
      | _ => none
  | _ => none

/-- The record loop: successful records are inserted into the statuses dict;
the first failing record aborts the loop and the accumulated dict is
returned (the `except`/`pass`/`return statuses` path). -/
def classifyAux : List (Json × Status) → List Json → List (Json × Status)
  | acc, [] => acc
  | acc, r :: rest =>
    match processRecord r with
    | some (k, st) => classifyAux (dictInsert k st acc) rest
    | none => acc

/-- Outcome of `subprocess.run(["docker", "compose", "ps", "--format",
"json"], ..., timeout=10)` together with the `json.loads` decode result of
its stdout. -/
inductive RunOutcome where
  | timedOut
  | completed (returncode : Nat) (stdout : String) (decoded : Except Unit Json)

/-- `DockerRunner.get_container_statuses` (`docker_runner.py:9-45`): empty
dict on timeout, non-zero exit, empty (stripped) stdout, decode failure, or a
decoded value that is neither a dict (normalised to a one-record list) nor a
list; otherwise the record loop. -/
def get_container_statuses : RunOutcome → List (Json × Status)
  | .timedOut => []
  | .completed rc stdout decoded =>
    if rc != 0 then []
    else if pyStrip stdout == "" then []
    else
      match decoded with
      | .error _ => []
      | .ok (.obj kvs) => classifyAux [] [Json.obj kvs]
      | .ok (.arr xs) => classifyAux [] xs
      | .ok _ => []

/-- The aggregation in `ProjectService._update_project_statuses`
(`services.py:46-53`). -/
def update_project_statuses_agg (m : List (Json × Status)) : Status :=
  if m.isEmpty then .NOT_CREATED
  else if m.any (fun p => p.2 == Status.RUNNING) then .RUNNING
  else .STOPPED

/-- The aggregation in `DockerRunner.get_status` (`docker_runner.py:47-53`). -/
def get_status_agg (m : List (Json × Status)) : Status :=
  if m.isEmpty then .NOT_CREATED
  else if m.any (fun p => p.2 == Status.RUNNING) then .RUNNING
  else .STOPPED

/-- `DockerRunner.get_status`: query then aggregate. -/
def get_status (out : RunOutcome) : Status :=
  get_status_agg (get_container_statuses out)

/-- The spec's wording of the derived project-level status: `NOT_CREATED` on
no entries; `RUNNING` when some entry is `RUNNING`; otherwise `STOPPED`. -/
def specAggregate (m : List (Json × Status)) : Status :=
  match m with
  | [] => .NOT_CREATED
  | _ => if (m.map Prod.snd).contains Status.RUNNING then .RUNNING else .STOPPED

/-- C6: for every status-query outcome where the runtime command exits
non-zero, produces empty (stripped) output, or produces output `json.loads`
cannot parse, the reconciler returns the empty mapping.  The model is a total
function into status dictionaries — the source's catch-all `except` guarantees
no error ever reaches the caller. -/
theorem reconciler_failures_empty (rc : Nat) (stdout : String) (decoded : Except Unit Json)
    (h : rc ≠ 0 ∨ pyStrip stdout = "" ∨ decoded = .error ()) :
    get_container_statuses (.completed rc stdout decoded) = [] := by
  simp only [get_container_statuses]
  rcases h with h | h | h
  · rw [if_pos (by simpa using h)]
  · by_cases hrc : (rc != 0) = true
    · rw [if_pos hrc]
    · rw [if_neg hrc, if_pos (by simp [h])]
  · by_cases hrc : (rc != 0) = true
    · rw [if_pos hrc]
    · rw [if_neg hrc]
      by_cases hso : (pyStrip stdout == "") = true
      · rw [if_pos hso]
      · rw [if_neg hso, h]

/-- Witness for C6, the spec scenario: the runtime query exits with code 1
and the reconciler yields `{}`. -/
theorem reconciler_failures_empty_witness :
    ((1 : Nat) ≠ 0 ∨ pyStrip "boom" = "" ∨ (Except.ok Json.null : Except Unit Json) = .error ()) ∧
    get_container_statuses (.completed 1 "boom" (.ok Json.null)) = [] :=
  ⟨Or.inl (by decide),
   reconciler_failures_empty 1 "boom" (.ok Json.null) (Or.inl (by decide))⟩

theorem contains_running_eq_any (m : List (Json × Status)) :
    (m.map Prod.snd).contains Status.RUNNING = m.any (fun p => p.2 == Status.RUNNING) := by
  induction m with
  | nil => rfl
  | cons p rest ih =>
    rw [List.map_cons, List.contains_cons, List.any_cons, ih]
    cases p.2 <;> rfl

/-- C7: both aggregation sites — `ProjectService._update_project_statuses`
and `DockerRunner.get_status` — derive the project-level status with exactly
the spec's tie-break: `NOT_CREATED` for no entries, `RUNNING` when any entry
is `RUNNING`, `STOPPED` otherwise; including the spec's three scenario
cases. -/
theorem status_aggregation_tiebreak :
    (∀ m : List (Json × Status), update_project_statuses_agg m = specAggregate m) ∧
    (∀ m : List (Json × Status), get_status_agg m = specAggregate m) ∧
    specAggregate [] = Status.NOT_CREATED ∧
    update_project_statuses_agg [(Json.str "a", Status.RUNNING), (Json.str "b", Status.STOPPED)] =
      Status.RUNNING ∧
    update_project_statuses_agg [(Json.str "a", Status.STOPPED)] = Status.STOPPED := by
  have hagg : ∀ m : List (Json × Status), update_project_statuses_agg m = specAggregate m := by
    intro m
    cases m with
    | nil => rfl
    | cons p rest =>
      unfold update_project_statuses_agg specAggregate
      rw [contains_running_eq_any]
      simp
  refine ⟨hagg, fun m => hagg m, rfl, by decide, by decide⟩

/-- C10: when the decoded status output is a record list whose prefix `good`
classifies cleanly and whose next record is malformed (any shape on which the
loop body raises: a non-object record, a non-string `State`/`Name`, an
unhashable key), the reconciler returns exactly the mapping of the records
classified before the malformed one — a partial, possibly non-empty result
rather than `{}` or an error. -/
theorem reconciler_partial_records (good : List Json) (bad : Json) (rest : List Json)
    (stdout : String) (hstdout : (pyStrip stdout == "") = false)
    (hgood : ∀ r ∈ good, (processRecord r).isSome) (hbad : processRecord bad = none) :
    get_container_statuses (.completed 0 stdout (.ok (.arr (good ++ bad :: rest)))) =
      classifyAux [] good := by
  have hstop : ∀ (g : List Json) (acc : List (Json × Status)),
      (∀ r ∈ g, (processRecord r).isSome) →
      classifyAux acc (g ++ bad :: rest) = classifyAux acc g := by
    intro g
    induction g with
    | nil =>
      intro acc _
      show classifyAux acc (bad :: rest) = acc
      unfold classifyAux
      rw [hbad]
    | cons r g ih =>
      intro acc hg
      rcases Option.isSome_iff_exists.mp (hg r (List.mem_cons_self r g)) with ⟨⟨k, st⟩, hr⟩
      show classifyAux acc (r :: (g ++ bad :: rest)) = classifyAux acc (r :: g)
      unfold classifyAux
      rw [hr]
      exact ih _ (fun x hx => hg x (List.mem_cons_of_mem r hx))
  simp only [get_container_statuses]
  rw [if_neg (by decide), if_neg (by simp [hstdout])]
  exact hstop good [] hgood

/-- Witness for C10: output decoding to
`[{"Service": "db", "State": "Up 2 minutes"}, 17]` — a good record followed by
a malformed one — yields the non-empty partial mapping `{"db": RUNNING}`. -/
theorem reconciler_partial_records_witness :
    get_container_statuses
        (.completed 0 "[\x7b\"Service\": \"db\", \"State\": \"Up 2 minutes\"\x7d, 17]"
          (.ok (.arr
            ([Json.obj [("Service", Json.str "db"), ("State", Json.str "Up 2 minutes")]] ++
              Json.num 17 :: [])))) =
      [(Json.str "db", Status.RUNNING)] ∧
    ([(Json.str "db", Status.RUNNING)] : List (Json × Status)) ≠ [] := by
  constructor
  · exact (reconciler_partial_records
      [Json.obj [("Service", Json.str "db"), ("State", Json.str "Up 2 minutes")]]
      (Json.num 17) []
      "[\x7b\"Service\": \"db\", \"State\": \"Up 2 minutes\"\x7d, 17]"
      (by decide) (by intro r hr; rw [List.mem_singleton] at hr; subst hr; rfl) rfl).trans rfl
  · simp

/-- C8: a request to initialize a project with zero services
(`create_compose(path, [], hosts)`, as `create_default_compose` does) writes a
descriptor with exactly one service entry — the fixed `nginx:latest`
placeholder bound to the single fixed port pair `8080:80` — never an empty
service table, for every host list. -/
theorem create_compose_zero_services (hosts : List (String × String)) :
    create_compose [] hosts = DEFAULT_TEMPLATE ∧
    DEFAULT_TEMPLATE.length = 1 ∧
    DEFAULT_TEMPLATE.head?.map (fun p => (p.1, p.2.image, p.2.ports)) =
      some ("nginx", some "nginx:latest", ["8080:80"]) ∧
    create_compose [] hosts ≠ [] := by
  refine ⟨rfl, rfl, rfl, ?_⟩
  intro hcontra
  exact List.noConfusion hcontra

/-! ## Runtime start/stop commands (`DockerRunner.compose_up` /
`compose_down`, `docker_runner.py:55-87`)

Both run `subprocess.run` with `timeout=30`.  On non-zero exit the source
raises `CalledProcessError(returncode, cmd, stdout, stderr)` *inside* the
`try`, so the generic `except Exception as e` catches it and re-raises
`Exception(f"Docker up failed: {e}")`; `str(CalledProcessError)` is
`"Command '<cmd>' returned non-zero exit status <rc>."` and does not include
the captured output, so the surfaced message loses stdout/stderr.  On
`TimeoutExpired` the first handler raises the remediation-hint message.  The
return code is modelled as `Nat` (exit statuses; the signal-death formatting
branch of negative return codes is not reachable through exit statuses). -/

/-- `subprocess.run` outcome for the up/down commands. -/
inductive RunResult where
  | timedOut
  | completed (returncode : Nat) (stdout : String) (stderr : String)

/-- The bounded timeout passed to `subprocess.run` for `compose_up` and
`compose_down` (`docker_runner.py:62` and `docker_runner.py:79`). -/
def composeTimeoutSeconds : Nat := 30

/-- Python `str(list_of_strings)`: `['a', 'b']`. -/
def pyStrList (args : List String) : String :=
  "[" ++ String.intercalate ", " (args.map (fun a => "'" ++ a ++ "'")) ++ "]"

/-- `str(subprocess.CalledProcessError(rc, cmd, out, err))` for a non-negative
return code: the message mentions the command and exit status only — not the
carried output. -/
def calledProcessErrorMsg (cmd : List String) (rc : Nat) : String :=
  "Command '" ++ pyStrList cmd ++ "' returned non-zero exit status " ++ toString rc ++ "."

/-- `DockerRunner.compose_up` (`docker_runner.py:55-70`): error message or
stripped stdout. -/
def compose_up : RunResult → Except String String
  | .timedOut => .error "Docker up timed out—check if paused or heavy volumes."
  | .completed rc out _ =>
    if rc != 0 then
      .error ("Docker up failed: " ++ calledProcessErrorMsg ["docker", "compose", "up", "-d"] rc)
    else .ok (pyStrip out)

/-- `DockerRunner.compose_down` (`docker_runner.py:72-87`). -/
def compose_down : RunResult → Except String String
  | .timedOut => .error "Docker down timed out—check if paused or heavy volumes."
  | .completed rc out _ =>
    if rc != 0 then
      .error ("Docker down failed: " ++ calledProcessErrorMsg ["docker", "compose", "down"] rc)
    else .ok (pyStrip out)

/-- C9 counterexample: the claim says a non-zero exit is surfaced as an error
carrying the captured stdout and stderr.  At return code 1 with stdout
`"OUTMARK"` and stderr `"ERRMARK"`, the surfaced error message is the fixed
`CalledProcessError` rendering, which contains neither the stdout nor the
stderr text: the captured output is dropped by the
`Exception(f"Docker up failed: {e}")` re-wrap. -/
theorem compose_up_drops_captured_output :
    compose_up (.completed 1 "OUTMARK" "ERRMARK") =
      .error "Docker up failed: Command '['docker', 'compose', 'up', '-d']' returned non-zero exit status 1." ∧
    strContains
      "Docker up failed: Command '['docker', 'compose', 'up', '-d']' returned non-zero exit status 1."
      "OUTMARK" = false ∧
    strContains
      "Docker up failed: Command '['docker', 'compose', 'up', '-d']' returned non-zero exit status 1."
      "ERRMARK" = false := by
  refine ⟨rfl, by decide, by decide⟩

/-- C9 amended: for start and stop, a non-zero exit of the runtime command is
surfaced as an error (never swallowed) whose message names the failed
command and its exit status — but not the captured stdout/stderr, which the
re-wrap drops — and exceeding the 30-second timeout is surfaced as a distinct
error whose message is the remediation hint
"…timed out—check if paused or heavy volumes." rather than a raw timeout
stack. -/
theorem runtime_errors_surfaced (rc : Nat) (out err : String) (h : rc ≠ 0) :
    compose_up (.completed rc out err) =
      .error ("Docker up failed: " ++ calledProcessErrorMsg ["docker", "compose", "up", "-d"] rc) ∧
    compose_down (.completed rc out err) =
      .error ("Docker down failed: " ++ calledProcessErrorMsg ["docker", "compose", "down"] rc) ∧
    compose_up .timedOut = .error "Docker up timed out—check if paused or heavy volumes." ∧
    compose_down .timedOut = .error "Docker down timed out—check if paused or heavy volumes." ∧
    strContains "Docker up timed out—check if paused or heavy volumes." "check if paused" = true ∧
    composeTimeoutSeconds = 30 := by
  have hb : (rc != 0) = true := by simpa using h
  refine ⟨?_, ?_, rfl, rfl, by decide, rfl⟩
  · simp only [compose_up]
    rw [if_pos hb]
  · simp only [compose_down]
    rw [if_pos hb]

/-- Witness for the C9 amended theorem at return code 1. -/
theorem runtime_errors_surfaced_witness :
    ((1 : Nat) ≠ 0) ∧
    (compose_up (.completed 1 "o" "e") =
      .error ("Docker up failed: " ++
        calledProcessErrorMsg ["docker", "compose", "up", "-d"] 1) ∧
    compose_down (.completed 1 "o" "e") =
      .error ("Docker down failed: " ++ calledProcessErrorMsg ["docker", "compose", "down"] 1) ∧
    compose_up .timedOut = .error "Docker up timed out—check if paused or heavy volumes." ∧
    compose_down .timedOut = .error "Docker down timed out—check if paused or heavy volumes." ∧
    strContains "Docker up timed out—check if paused or heavy volumes." "check if paused" = true ∧
    composeTimeoutSeconds = 30) :=
  ⟨by decide, runtime_errors_surfaced 1 "o" "e" (by decide)⟩
